import Mathlib

/-!
Verification of the durable SMS dispatch core (queue service, message
logging service, batch dispatcher, receipt ingestion) against its
natural-language specification.  The Python services are shallowly
embedded: each database row type becomes a structure, each service
method becomes a pure function over explicit state, and the two
`datetime.now` clock reads inside one method are identified with a
single `now : Int` parameter (seconds since epoch), which is within the
spec's one-second tolerance.  String-valued statuses are kept as
strings, exactly as in the source.
-/

namespace SMSSpec

/-- Row of the `sms_queue` table, after the `sms_queue_enhancement_001`
migration.  Timestamps are integers (seconds); nullable columns are
`Option`. -/
structure SMSQueue where
  id : Nat
  campaign_id : Nat
  contact_id : Nat
  message_content : String
  priority : Int
  max_attempts : Nat
  status : String
  attempts : Nat
  scheduled_at : Int
  next_retry_at : Option Int
  last_attempt_at : Option Int
  processed_at : Option Int
  external_message_id : Option String
  error_message : Option String
  created_at : Int
deriving Repr, DecidableEq

/-- Row of the `contacts` table (only the columns `add_to_queue` reads). -/
structure Contact where
  id_contact : Nat
  numero_telephone : String
deriving Repr, DecidableEq

/-- Row of the `campaigns` table (only the columns `add_to_queue` reads). -/
structure Campaign where
  id_campagne : Nat
  statut : String
deriving Repr, DecidableEq

/-- `SMSQueueService.mark_sent`: set status `sent`, stamp `processed_at`,
record the provider id, clear `error_message`. -/
def mark_sent (queue_item : SMSQueue) (external_message_id : String) (now : Int) : SMSQueue :=
  { queue_item with
      status := "sent"
      processed_at := some now
      external_message_id := some external_message_id
      error_message := none }

/-- `SMSQueueService.mark_failed`: increment `attempts`, stamp
`last_attempt_at`, store the error; if the failure is retryable and
attempts remain, schedule the next retry `2 ^ attempts` minutes out and
reset to `pending`, otherwise set status `failed`.  Note the failed
branch does not touch `processed_at`. -/
def mark_failed (queue_item : SMSQueue) (error_message : String)
    (should_retry : Bool) (now : Int) : SMSQueue :=
  let item1 := { queue_item with
      attempts := queue_item.attempts + 1
      last_attempt_at := some now
      error_message := some error_message }
  if should_retry && decide (item1.attempts < item1.max_attempts) then
    { item1 with
        next_retry_at := some (now + 60 * 2 ^ item1.attempts)
        status := "pending" }
  else
    { item1 with status := "failed" }

/-- Update every row of the queue bearing the given id (the SQL row
update behind a mutation of a fetched ORM object). -/
def updateById (q : List SMSQueue) (queue_item_id : Nat) (f : SMSQueue → SMSQueue) :
    List SMSQueue :=
  q.map (fun j => if j.id == queue_item_id then f j else j)

/-- `SMSQueueService.cancel_message`: look the row up by id; refuse
unless its status is `pending` or `processing`; otherwise set status
`cancelled`, store the reason and stamp `processed_at`. -/
def cancel_message (q : List SMSQueue) (queue_item_id : Nat) (reason : String)
    (now : Int) : List SMSQueue × Bool :=
  match q.find? (fun it => it.id == queue_item_id) with
  | none => (q, false)
  | some it =>
    if it.status == "pending" || it.status == "processing" then
      (updateById q queue_item_id (fun j =>
        { j with
            status := "cancelled"
            error_message := some reason
            processed_at := some now }), true)
    else (q, false)

/-- `SMSQueueService.reset_for_retry`: look the row up by id; allowed
only for statuses `failed` or `retry_pending`; on success set status
`pending` and clear `next_retry_at` and `error_message` (leaving
`attempts` as they are). -/
def reset_for_retry (q : List SMSQueue) (queue_item_id : Nat) :
    List SMSQueue × Bool :=
  match q.find? (fun it => it.id == queue_item_id) with
  | none => (q, false)
  | some it =>
    if it.status == "failed" || it.status == "retry_pending" then
      (updateById q queue_item_id (fun j =>
        { j with
            status := "pending"
            next_retry_at := none
            error_message := none }), true)
    else (q, false)

/-- Lease eligibility filter of `SMSQueueService.get_pending_messages`:
status `pending`, not scheduled in the future, and no pending backoff. -/
def eligibleForLease (now : Int) (it : SMSQueue) : Bool :=
  it.status == "pending" && decide (it.scheduled_at ≤ now) &&
    (match it.next_retry_at with
     | none => true
     | some t => decide (t ≤ now))

/-- Lease ordering of `get_pending_messages` with `priority_order=True`:
ascending `priority`, ties broken by ascending `created_at`
(`ORDER BY priority ASC, created_at ASC`). -/
def leaseRel (a b : SMSQueue) : Prop :=
  a.priority < b.priority ∨ (a.priority = b.priority ∧ a.created_at ≤ b.created_at)

instance : DecidableRel leaseRel := fun a b => by
  unfold leaseRel; infer_instance

instance : IsTotal SMSQueue leaseRel := ⟨by intro a b; unfold leaseRel; omega⟩

instance : IsTrans SMSQueue leaseRel := ⟨by intro a b c; unfold leaseRel; omega⟩

/-- Ordering of `get_pending_messages` with `priority_order=False`:
ascending `created_at` only. -/
def createdRel (a b : SMSQueue) : Prop := a.created_at ≤ b.created_at

instance : DecidableRel createdRel := fun a b => by
  unfold createdRel; infer_instance

instance : IsTotal SMSQueue createdRel := ⟨by intro a b; unfold createdRel; omega⟩

instance : IsTrans SMSQueue createdRel := ⟨by intro a b c; unfold createdRel; omega⟩

/-- `SMSQueueService.get_pending_messages`: filter the eligible rows,
order them, return at most `limit`. -/
def get_pending_messages (q : List SMSQueue) (limit : Nat) (priority_order : Bool)
    (now : Int) : List SMSQueue :=
  let eligible := q.filter (eligibleForLease now)
  let ordered := if priority_order then
      eligible.insertionSort leaseRel
    else
      eligible.insertionSort createdRel
  ordered.take limit

/-- Database handle visible to `add_to_queue`. -/
structure Db where
  contacts : List Contact
  campaigns : List Campaign
  queue : List SMSQueue
deriving Repr, DecidableEq

/-- `SMSQueueService.add_to_queue`.  `phoneOk` abstracts the external
`phonenumbers` library behind `validate_and_format_phone_number`: it
answers whether a contact's stored number validates.  The method checks
in order: the contact exists; its phone number validates; the campaign
exists; the campaign status is `active` or `scheduled`.  It performs no
range check at all on `priority` or `max_attempts` before inserting the
row. -/
def add_to_queue (phoneOk : String → Bool) (db : Db)
    (campaign_id contact_id : Nat) (message_content : String)
    (scheduled_at : Option Int) (priority : Int) (max_attempts : Nat)
    (now : Int) (newId : Nat) : Except String (Db × SMSQueue) :=
  let sched := scheduled_at.getD now
  match db.contacts.find? (fun c => c.id_contact == contact_id) with
  | none => .error "Contact not found"
  | some contact =>
    if !phoneOk contact.numero_telephone then
      .error "Invalid phone number"
    else
      match db.campaigns.find? (fun c => c.id_campagne == campaign_id) with
      | none => .error "Campaign not found"
      | some campaign =>
        if campaign.statut == "active" || campaign.statut == "scheduled" then
          let queue_item : SMSQueue :=
            { id := newId
              campaign_id := campaign_id
              contact_id := contact_id
              message_content := message_content
              priority := priority
              max_attempts := max_attempts
              status := "pending"
              attempts := 0
              scheduled_at := sched
              next_retry_at := none
              last_attempt_at := none
              processed_at := none
              external_message_id := none
              error_message := none
              created_at := now }
          .ok ({ db with queue := db.queue ++ [queue_item] }, queue_item)
        else
          .error "Campaign is not active or scheduled"

/-- Check constraint `ck_sms_queue_priority_range` added by migration
`sms_queue_enhancement_001`: `priority >= 0 AND priority <= 10`. -/
def ck_sms_queue_priority_range (priority : Int) : Bool :=
  decide (0 ≤ priority) && decide (priority ≤ 10)

/-- Check constraint `ck_sms_queue_max_attempts_range` added by the same
migration: `max_attempts >= 1 AND max_attempts <= 10`. -/
def ck_sms_queue_max_attempts_range (max_attempts : Nat) : Bool :=
  decide (1 ≤ max_attempts) && decide (max_attempts ≤ 10)

/-- Row of the `messages` table (columns the logging service touches).
`cost` is the fixed-point money column, embedded as a rational. -/
structure Message where
  id_message : Nat
  contenu : String
  date_envoi : Int
  statut_livraison : String
  final_status : Option String
  delivery_attempts : Nat
  delivery_timestamp : Option Int
  external_message_id : Option String
  error_message : Option String
  cost : Option Rat
  id_contact : Nat
  id_campagne : Nat
  id_liste : Option Nat
  queue_item_id : Option Nat
  updated_at : Option Int
deriving Repr, DecidableEq

/-- Provider response payload, reduced to the keys the services read
(`price`, `error_code`, `error_message`).  A numeric `price` is embedded
as a rational. -/
structure ProviderResponse where
  price : Option Rat
  error_code : Option String
  error_message : Option String
deriving Repr, DecidableEq

/-- Row of the `message_logs` table. -/
structure MessageLog where
  message_id : Nat
  queue_item_id : Option Nat
  status : String
  provider_status : Option String
  provider_response : ProviderResponse
  error_code : Option String
  error_message : Option String
  attempt_number : Nat
  external_message_id : Option String
  cost : Option Rat
  processing_duration : Option Int
  created_at : Int
deriving Repr, DecidableEq

/-- Python truthiness of an optional string: `None` and the empty string
are falsy. -/
def strTruthy : Option String → Bool
  | none => false
  | some s => !(s == "")

/-- Python truthiness of an optional number: `None` and `0` are falsy. -/
def ratTruthy : Option Rat → Bool
  | none => false
  | some c => !(c == 0)

/-- `MessageLoggingService.log_message_event`: append a `MessageLog` row
whose `attempt_number` is one more than the number of existing rows for
this message, then fold the event into the `Message` aggregate.  The
Python guards `if external_message_id:`, `if error_message:` and
`if cost:` are truthiness tests, embedded via `strTruthy`/`ratTruthy`.
For a terminal status (`delivered`, `failed`, `bounced`) the code
unconditionally overwrites `final_status`, and for `delivered` it
unconditionally overwrites `delivery_timestamp` with the current time.
The `event_type` argument is accepted but stored nowhere (the
`message_logs` table has no such column). -/
def log_message_event (logs : List MessageLog) (message : Message)
    (status : String) (event_type : String)
    (provider_status : Option String) (provider_response : ProviderResponse)
    (error_code : Option String) (error_message : Option String)
    (external_message_id : Option String) (cost : Option Rat)
    (processing_duration : Option Int) (queue_item_id : Option Nat)
    (now : Int) : MessageLog × Message :=
  let _ := event_type
  let attempt_number :=
    (logs.filter (fun l => l.message_id == message.id_message)).length + 1
  let log_entry : MessageLog :=
    { message_id := message.id_message
      queue_item_id := queue_item_id
      status := status
      provider_status := provider_status
      provider_response := provider_response
      error_code := error_code
      error_message := error_message
      attempt_number := attempt_number
      external_message_id := external_message_id
      cost := cost
      processing_duration := processing_duration
      created_at := now }
  let terminal := status == "delivered" || status == "failed" || status == "bounced"
  let message1 := { message with
      statut_livraison := status
      delivery_attempts := attempt_number
      updated_at := some now
      external_message_id :=
        if strTruthy external_message_id then external_message_id
        else message.external_message_id
      error_message :=
        if strTruthy error_message then error_message else message.error_message
      cost := if ratTruthy cost then cost else message.cost
      final_status := if terminal then some status else message.final_status
      delivery_timestamp :=
        if status == "delivered" then some now else message.delivery_timestamp }
  (log_entry, message1)

/-- ASCII lower-casing of one character, the effect of Python's
`str.lower()` on the ASCII status strings involved here. -/
def pyLowerChar (c : Char) : Char :=
  if c.val ≥ 65 && c.val ≤ 90 then Char.ofNat (c.toNat + 32) else c

/-- Python `provider_status.lower()` (ASCII). -/
def pyLower (s : String) : String := String.mk (s.data.map pyLowerChar)

/-- `MessageLoggingService._map_provider_status`: lower-case the provider
status, look it up in the Twilio table, and fall back to the original
string when absent. -/
def map_provider_status (provider_status : String) : String :=
  let l := pyLower provider_status
  if l == "queued" then "sent"
  else if l == "sending" then "sent"
  else if l == "sent" then "sent"
  else if l == "delivered" then "delivered"
  else if l == "failed" then "failed"
  else if l == "undelivered" then "failed"
  else if l == "read" then "delivered"
  else provider_status

/-- Inline status mapping of the dispatcher's send path
(`process_sms_batch`, src/app/tasks/sms_tasks.py lines 129-137): no
lower-casing, no `read`/`sent` cases, and every unrecognised status
defaults to `sent`. -/
def dispatcher_map_status (provider_status : String) : String :=
  if provider_status == "queued" || provider_status == "sending" then "sent"
  else if provider_status == "delivered" then "delivered"
  else if provider_status == "failed" || provider_status == "undelivered" then "failed"
  else "sent"

/-- `MessageLoggingService._extract_cost_from_response`: read `price`
from the response; a falsy price (absent or zero) yields nothing. -/
def extract_cost_from_response (resp : ProviderResponse) : Option Rat :=
  match resp.price with
  | none => none
  | some p => if p == 0 then none else some p

/-- State the logging service acts on: the `messages` and
`message_logs` tables. -/
structure LogState where
  messages : List Message
  logs : List MessageLog
deriving Repr, DecidableEq

/-- `MessageLoggingService.update_delivery_status`: find the message by
provider id (`False` when absent), map the provider status to the
internal taxonomy, extract cost and error details from the response, and
delegate to `log_message_event` with event type `delivery_update`. -/
def update_delivery_status (st : LogState) (external_message_id : String)
    (provider_status : String) (provider_response : ProviderResponse)
    (now : Int) : LogState × Bool :=
  match st.messages.find? (fun m => m.external_message_id == some external_message_id) with
  | none => (st, false)
  | some message =>
    let internal_status := map_provider_status provider_status
    let cost := extract_cost_from_response provider_response
    let r := log_message_event st.logs message internal_status "delivery_update"
      (some provider_status) provider_response provider_response.error_code
      provider_response.error_message none cost none none now
    ({ messages := st.messages.map
         (fun m => if m.id_message == message.id_message then r.2 else m)
       logs := st.logs ++ [r.1] }, true)

/-- Result shape of `MessageLoggingService.get_campaign_message_stats`.
Histograms are association lists in first-seen order, matching Python
dict insertion order. -/
structure CampaignStats where
  total_messages : Nat
  status_breakdown : List (String × Nat)
  delivery_rate : Rat
  average_delivery_time : Rat
  total_cost : Rat
  retry_rate : Rat
  error_summary : List (String × Nat)
deriving Repr, DecidableEq

/-- Increment a key of an association-list histogram
(`d[k] = d.get(k, 0) + 1`). -/
def bumpCount (l : List (String × Nat)) (k : String) : List (String × Nat) :=
  match l with
  | [] => [(k, 1)]
  | (k0, n) :: rest =>
    if k0 == k then (k0, n + 1) :: rest else (k0, n) :: bumpCount rest k

/-- Read a key of an association-list histogram with default `0`. -/
def lookupCount (l : List (String × Nat)) (k : String) : Nat :=
  match l.find? (fun p => p.1 == k) with
  | some p => p.2
  | none => 0

/-- Python `message.final_status or message.statut_livraison`: the
fallback fires when `final_status` is falsy (`None` or empty). -/
def statusKey (m : Message) : String :=
  if strTruthy m.final_status then m.final_status.getD "" else m.statut_livraison

/-- Python `str(...)` of an optional value inside an f-string. -/
def pyStrOpt : Option String → String
  | none => "None"
  | some s => s

/-- Histogram key `"error_code: error_message"` used by the campaign
error summary. -/
def errorKey (l : MessageLog) : String :=
  pyStrOpt l.error_code ++ ": " ++ pyStrOpt l.error_message

/-- The all-zero statistics dict built at the top of
`get_campaign_message_stats` and returned as-is for an empty campaign. -/
def zeroCampaignStats : CampaignStats :=
  { total_messages := 0
    status_breakdown := []
    delivery_rate := 0
    average_delivery_time := 0
    total_cost := 0
    retry_rate := 0
    error_summary := [] }

/-- `MessageLoggingService.get_campaign_message_stats`: collect the
campaign's messages; when there are none, return the zero stats before
any division; otherwise compute breakdown, delivery rate, mean delivery
time, truthy-cost total, retry rate and error summary. -/
def get_campaign_message_stats (st : LogState) (campaign_id : Nat) : CampaignStats :=
  let messages := st.messages.filter (fun m => m.id_campagne == campaign_id)
  if messages.isEmpty then zeroCampaignStats
  else
    let breakdown := messages.foldl (fun acc m => bumpCount acc (statusKey m)) []
    let total : Nat := messages.length
    let delivered_count := lookupCount breakdown "delivered"
    let delivery_rate : Rat := ((delivered_count : Rat) / (total : Rat)) * 100
    let delivered_messages := messages.filter (fun m => m.delivery_timestamp.isSome)
    let average_delivery_time : Rat :=
      if delivered_messages.isEmpty then 0
      else
        ((delivered_messages.foldl
            (fun a m => a + ((m.delivery_timestamp.getD 0) - m.date_envoi)) 0 : Int) : Rat) /
          (delivered_messages.length : Rat)
    let total_cost : Rat := messages.foldl
      (fun a m => a + (if ratTruthy m.cost then m.cost.getD 0 else 0)) 0
    let retried := messages.filter (fun m => decide (1 < m.delivery_attempts))
    let retry_rate : Rat := ((retried.length : Rat) / (total : Rat)) * 100
    let campaign_ids := messages.map (fun m => m.id_message)
    let error_logs := st.logs.filter
      (fun l => campaign_ids.contains l.message_id && l.error_code.isSome)
    let error_summary := error_logs.foldl (fun acc l => bumpCount acc (errorKey l)) []
    { total_messages := total
      status_breakdown := breakdown
      delivery_rate := delivery_rate
      average_delivery_time := average_delivery_time
      total_cost := total_cost
      retry_rate := retry_rate
      error_summary := error_summary }

/-- Positional-or-keyword parameter names of
`SMSQueueService.mark_sent(self, queue_item, external_message_id)`. -/
def mark_sent_param_names : List String :=
  ["queue_item", "external_message_id"]

/-- Positional-or-keyword parameter names of
`SMSQueueService.mark_failed(self, queue_item, error_message, should_retry)`. -/
def mark_failed_param_names : List String :=
  ["queue_item", "error_message", "should_retry"]

/-- Keyword-argument names the dispatcher `process_sms_batch` passes to
`mark_sent` (src/app/tasks/sms_tasks.py lines 153-157). -/
def dispatcher_mark_sent_kwargs : List String :=
  ["queue_item_id", "external_message_id", "provider_response"]

/-- Keyword-argument names the dispatcher passes to `mark_failed`
(src/app/tasks/sms_tasks.py lines 191-202 and 230-234). -/
def dispatcher_mark_failed_kwargs : List String :=
  ["queue_item_id", "error_message", "is_permanent"]

/-- A Python call binds only when every keyword argument names a
parameter of the callee; otherwise the call raises `TypeError` before
the body runs. -/
def kwargsAccepted (params kwargs : List String) : Bool :=
  kwargs.all (fun k => params.contains k)

/-- A queue row mid-dispatch, used to instantiate the theorems. -/
def sampleItem : SMSQueue :=
  { id := 1
    campaign_id := 1
    contact_id := 1
    message_content := "hello"
    priority := 5
    max_attempts := 3
    status := "processing"
    attempts := 0
    scheduled_at := 0
    next_retry_at := none
    last_attempt_at := none
    processed_at := none
    external_message_id := none
    error_message := none
    created_at := 0 }

/-- A pending queue row. -/
def samplePending : SMSQueue := { sampleItem with status := "pending" }

/-- The row `cancel_message` produces from `samplePending` at time 100. -/
def sampleCancelledItem : SMSQueue :=
  { samplePending with
      status := "cancelled"
      error_message := some "stop"
      processed_at := some 100 }

/-- A queue row stuck in the undocumented `retry_pending` status. -/
def sampleRetryPendingItem : SMSQueue :=
  { sampleItem with id := 2, status := "retry_pending" }

/-- Claim C1, counterexample: a permanent `mark_failed` moves the item
to the terminal status `failed` yet leaves `processed_at` null, so the
claimed invariant `terminal implies processed_at set` fails exactly at
`mark_failed`, the operation the claim singles out. -/
theorem mark_failed_leaves_processed_at_null_cex :
    (mark_failed sampleItem "err" false 100).status = "failed" ∧
    (mark_failed sampleItem "err" false 100).processed_at = none := by
  decide

/-- Claim C1 (amended): `mark_sent` and `cancel_message` do stamp
`processed_at` when they move an item to `sent`/`cancelled`, but
`mark_failed` always leaves `processed_at` unchanged, so an item it
moves to `failed` may keep a null `processed_at`. -/
theorem terminal_processed_at_amended (item : SMSQueue) (ext err reason : String)
    (sr : Bool) (now : Int) (q : List SMSQueue) (id : Nat) :
    ((mark_sent item ext now).status = "sent" ∧
      (mark_sent item ext now).processed_at = some now) ∧
    ((mark_failed item err sr now).processed_at = item.processed_at) ∧
    ((cancel_message q id reason now).2 = true →
      ∀ it ∈ (cancel_message q id reason now).1, it.id = id →
        it.status = "cancelled" ∧ it.processed_at = some now) := by
  refine ⟨⟨rfl, rfl⟩, ?_, ?_⟩
  · simp only [mark_failed]
    split <;> rfl
  · intro hsucc it hmem hid
    unfold cancel_message at hsucc hmem
    cases hfind : q.find? (fun j => j.id == id) with
    | none => rw [hfind] at hsucc; simp at hsucc
    | some it0 =>
      rw [hfind] at hsucc hmem
      dsimp only at hsucc hmem
      by_cases hst : (it0.status == "pending" || it0.status == "processing") = true
      · rw [if_pos hst] at hmem
        simp only [updateById, List.mem_map] at hmem
        rcases hmem with ⟨j, hjq, hj⟩
        by_cases hjid : (j.id == id) = true
        · rw [if_pos hjid] at hj
          exact hj ▸ ⟨rfl, rfl⟩
        · rw [if_neg hjid] at hj
          subst hj
          exact absurd (beq_iff_eq.mpr hid) hjid
      · rw [if_neg hst] at hsucc
        simp at hsucc

/-- Claim C1, witness for the amended theorem at concrete inputs. -/
theorem terminal_processed_at_amended_witness :
    (mark_sent sampleItem "SM1" 100).processed_at = some 100 ∧
    (mark_failed sampleItem "err" false 100).processed_at = sampleItem.processed_at ∧
    sampleCancelledItem.status = "cancelled" ∧
    sampleCancelledItem.processed_at = some 100 := by
  have h := terminal_processed_at_amended sampleItem "SM1" "err" "stop" false 100
    [samplePending] 1
  have hmem : sampleCancelledItem ∈ (cancel_message [samplePending] 1 "stop" 100).1 := by
    decide
  have hc := h.2.2 (by decide) sampleCancelledItem hmem (by decide)
  exact ⟨h.1.2, h.2.1, hc.1, hc.2⟩

/-- Claim C3: writing `k` for the number of the just-recorded failed
attempt (`attempts + 1` after the increment), a retryable failure with
`k < max_attempts` resets the item to `pending` with
`last_attempt_at = now` and `next_retry_at = now + 60 * 2 ^ k` seconds,
i.e. `next_retry_at - last_attempt_at` is exactly `2 ^ k` minutes
(well within the one-second tolerance); a permanent failure, or one
with `k` at or past `max_attempts`, sets status `failed` and schedules
nothing (`next_retry_at` is untouched). -/
theorem retry_backoff_law (item : SMSQueue) (err : String) (sr : Bool) (now : Int) :
    (sr = true → item.attempts + 1 < item.max_attempts →
      (mark_failed item err sr now).status = "pending" ∧
      (mark_failed item err sr now).attempts = item.attempts + 1 ∧
      (mark_failed item err sr now).last_attempt_at = some now ∧
      (mark_failed item err sr now).next_retry_at =
        some (now + 60 * 2 ^ (item.attempts + 1))) ∧
    ((sr = false ∨ item.max_attempts ≤ item.attempts + 1) →
      (mark_failed item err sr now).status = "failed" ∧
      (mark_failed item err sr now).attempts = item.attempts + 1 ∧
      (mark_failed item err sr now).next_retry_at = item.next_retry_at) := by
  constructor
  · intro hsr hlt
    subst hsr
    simp only [mark_failed]
    rw [if_pos (by simp [hlt])]
    exact ⟨rfl, rfl, rfl, rfl⟩
  · intro hcase
    simp only [mark_failed]
    rw [if_neg ?_]
    · exact ⟨rfl, rfl, rfl⟩
    · rcases hcase with h | h
      · subst h; simp
      · simp only [Bool.and_eq_true, decide_eq_true_eq]
        rintro ⟨-, hlt⟩
        omega

/-- Claim C3, witness: with `attempts = 0`, `max_attempts = 3` the
first transient failure at time 1000 is rescheduled 2 minutes out, and
a permanent failure is terminal. -/
theorem retry_backoff_law_witness :
    (0 : Nat) + 1 < 3 ∧
    (mark_failed sampleItem "timeout" true 1000).status = "pending" ∧
    (mark_failed sampleItem "timeout" true 1000).next_retry_at = some 1120 ∧
    (mark_failed sampleItem "invalid" false 1000).status = "failed" := by
  have h := retry_backoff_law sampleItem "timeout" true 1000
  have h2 := retry_backoff_law sampleItem "invalid" false 1000
  have hr := h.1 rfl (by decide)
  exact ⟨by decide, hr.1, hr.2.2.2, (h2.2 (Or.inl rfl)).1⟩

/-- Claim C6, counterexample: `reset_for_retry` also succeeds on an
item whose status is `retry_pending`, contradicting the claim that it
succeeds exactly on status `failed` and returns false for any other
status. -/
theorem reset_for_retry_accepts_retry_pending_cex :
    (reset_for_retry [sampleRetryPendingItem] 2).2 = true := by decide

/-- Claim C6 (amended): `reset_for_retry` succeeds exactly when the
item is found and its status is `failed` or `retry_pending`; on success
every row with the id becomes `pending` with `next_retry_at` and
`error_message` cleared; `attempts` are never changed; on failure the
queue is untouched. -/
theorem reset_for_retry_amended (q : List SMSQueue) (id : Nat) :
    ((reset_for_retry q id).2 = true ↔
      ∃ it, q.find? (fun j => j.id == id) = some it ∧
        (it.status = "failed" ∨ it.status = "retry_pending")) ∧
    ((reset_for_retry q id).2 = true →
      ∀ it ∈ (reset_for_retry q id).1, it.id = id →
        it.status = "pending" ∧ it.next_retry_at = none ∧
        it.error_message = none) ∧
    ((reset_for_retry q id).1.map (fun j => j.attempts) = q.map (fun j => j.attempts)) ∧
    ((reset_for_retry q id).2 = false → (reset_for_retry q id).1 = q) := by
  unfold reset_for_retry
  cases hfind : q.find? (fun j => j.id == id) with
  | none =>
    dsimp only
    refine ⟨?_, ?_, rfl, fun _ => rfl⟩
    · simp
    · intro hsucc; simp at hsucc
  | some it0 =>
    dsimp only
    by_cases hst : (it0.status == "failed" || it0.status == "retry_pending") = true
    · rw [if_pos hst]
      refine ⟨?_, ?_, ?_, ?_⟩
      · simp only [true_iff]
        refine ⟨it0, rfl, ?_⟩
        simpa [beq_iff_eq] using hst
      · intro _ it hmem hid
        simp only [updateById, List.mem_map] at hmem
        rcases hmem with ⟨j, hjq, hj⟩
        by_cases hjid : (j.id == id) = true
        · rw [if_pos hjid] at hj
          exact hj ▸ ⟨rfl, rfl, rfl⟩
        · rw [if_neg hjid] at hj
          subst hj
          exact absurd (beq_iff_eq.mpr hid) hjid
      · simp only [updateById, List.map_map]
        apply List.map_congr_left
        intro j hjq
        by_cases hjid : (j.id == id) = true <;>
          simp [Function.comp, hjid]
      · intro hfalse; simp at hfalse
    · rw [if_neg hst]
      refine ⟨?_, ?_, rfl, fun _ => rfl⟩
      · simp only [Bool.false_eq_true, false_iff]
        rintro ⟨it, hit, hstat⟩
        injection hit with hit
        subst hit
        exact hst (by rcases hstat with h | h <;> simp [h])
      · intro hsucc; simp at hsucc

/-- Claim C6, witness for the amended theorem: a failed item is reset
to pending with the retry fields cleared and attempts preserved. -/
theorem reset_for_retry_amended_witness :
    (reset_for_retry [{ sampleItem with status := "failed" }] 1).2 = true ∧
    ({ sampleItem with status := "pending" } : SMSQueue).status = "pending" := by
  have h := reset_for_retry_amended [{ sampleItem with status := "failed" }] 1
  exact ⟨h.1.mpr ⟨{ sampleItem with status := "failed" }, by decide, Or.inl rfl⟩,
    rfl⟩

/-- Claim C9: in `process_sms_batch` the success path calls `mark_sent`
with keywords `queue_item_id` and `provider_response`, and both failure
paths call `mark_failed` with keywords `queue_item_id` and
`is_permanent`; neither set is accepted by the callee's parameters
`(queue_item, external_message_id)` resp.
`(queue_item, error_message, should_retry)`, so each call raises
`TypeError` instead of completing the happy path. -/
theorem process_sms_batch_kwargs_mismatch :
    kwargsAccepted mark_sent_param_names dispatcher_mark_sent_kwargs = false ∧
    kwargsAccepted mark_failed_param_names dispatcher_mark_failed_kwargs = false := by
  decide

/-- A message row already carrying a stored cost and error message. -/
def sampleMessage : Message :=
  { id_message := 1
    contenu := "hello"
    date_envoi := 0
    statut_livraison := "sent"
    final_status := none
    delivery_attempts := 1
    delivery_timestamp := none
    external_message_id := some "SM1"
    error_message := some "prior error"
    cost := some 2
    id_contact := 1
    id_campagne := 1
    id_liste := none
    queue_item_id := some 1
    updated_at := none }

/-- A provider response with no price and no error details. -/
def emptyResp : ProviderResponse :=
  { price := none, error_code := none, error_message := none }

/-- Claim C7, counterexample: `log_message_event` with the non-null
values `cost = 0.0` and `error_message = ""` preserves the previously
stored cost and error message instead of overwriting them, because the
guards are Python truthiness tests, not null tests. -/
theorem log_event_zero_cost_not_written_cex :
    ((log_message_event [] sampleMessage "sent" "delivery_update" none emptyResp
        none (some "") none (some 0) none none 50).2.cost = some 2) ∧
    ((log_message_event [] sampleMessage "sent" "delivery_update" none emptyResp
        none (some "") none (some 0) none none 50).2.error_message =
      some "prior error") := by
  decide

/-- Claim C7 (amended): the new log row's `attempt_number` is the count
of existing rows for the message plus one and `delivery_attempts` is set
to it, but `external_message_id`, `error_message` and `cost` are
overwritten exactly when the new value is truthy — non-null and neither
the empty string nor zero; falsy values (null, `""`, `0.0`) preserve the
stored value. -/
theorem log_event_fold_amended (logs : List MessageLog) (msg : Message)
    (status event_type : String) (ps : Option String) (resp : ProviderResponse)
    (ec em ext : Option String) (cost : Option Rat) (dur : Option Int)
    (qid : Option Nat) (now : Int) :
    (log_message_event logs msg status event_type ps resp ec em ext cost dur qid
        now).1.attempt_number =
      (logs.filter (fun l => l.message_id == msg.id_message)).length + 1 ∧
    (log_message_event logs msg status event_type ps resp ec em ext cost dur qid
        now).2.delivery_attempts =
      (log_message_event logs msg status event_type ps resp ec em ext cost dur qid
        now).1.attempt_number ∧
    (log_message_event logs msg status event_type ps resp ec em ext cost dur qid
        now).2.external_message_id =
      (if strTruthy ext then ext else msg.external_message_id) ∧
    (log_message_event logs msg status event_type ps resp ec em ext cost dur qid
        now).2.error_message = (if strTruthy em then em else msg.error_message) ∧
    (log_message_event logs msg status event_type ps resp ec em ext cost dur qid
        now).2.cost = (if ratTruthy cost then cost else msg.cost) := by
  exact ⟨rfl, rfl, rfl, rfl, rfl⟩

/-- The `messages`/`message_logs` state holding only `sampleMessage`. -/
def sampleState : LogState := { messages := [sampleMessage], logs := [] }

/-- State after a first `delivered` receipt for SM1 at time 100. -/
def stateAfterFirstDelivered : LogState :=
  (update_delivery_status sampleState "SM1" "delivered" emptyResp 100).1

/-- State after a second, repeated `delivered` receipt at time 200. -/
def stateAfterSecondDelivered : LogState :=
  (update_delivery_status stateAfterFirstDelivered "SM1" "delivered" emptyResp 200).1

/-- State after a late `failed` receipt at time 300 following the
`delivered` receipt. -/
def stateAfterLateFailed : LogState :=
  (update_delivery_status stateAfterFirstDelivered "SM1" "failed" emptyResp 300).1

/-- Claim C2, counterexample: after a `delivered` receipt set
`final_status = delivered` and `delivery_timestamp = 100`, a repeated
`delivered` receipt for the same external id advances
`delivery_timestamp` to 200, and a subsequent `failed` receipt
overwrites `final_status` to `failed` — both directly contradicting the
claimed write-once behaviour. -/
theorem final_status_reverts_cex :
    stateAfterFirstDelivered.messages.head?.map (fun m => m.final_status) =
      some (some "delivered") ∧
    stateAfterFirstDelivered.messages.head?.map (fun m => m.delivery_timestamp) =
      some (some 100) ∧
    stateAfterSecondDelivered.messages.head?.map (fun m => m.delivery_timestamp) =
      some (some 200) ∧
    stateAfterLateFailed.messages.head?.map (fun m => m.final_status) =
      some (some "failed") := by
  decide

/-- Claim C2 (amended): every `log_message_event` (and hence every
`update_delivery_status`) carrying a terminal status overwrites
`final_status` with that status, so a later terminal event does change
an already-set `final_status`; and every `delivered` event overwrites
`delivery_timestamp` with the current time, so a repeated `delivered`
receipt advances it.  Non-terminal events leave both fields alone. -/
theorem final_status_fold_amended (logs : List MessageLog) (msg : Message)
    (status event_type : String) (ps : Option String) (resp : ProviderResponse)
    (ec em ext : Option String) (cost : Option Rat) (dur : Option Int)
    (qid : Option Nat) (now : Int) :
    ((status = "delivered" ∨ status = "failed" ∨ status = "bounced") →
      (log_message_event logs msg status event_type ps resp ec em ext cost dur qid
        now).2.final_status = some status) ∧
    (status = "delivered" →
      (log_message_event logs msg status event_type ps resp ec em ext cost dur qid
        now).2.delivery_timestamp = some now) ∧
    ((status ≠ "delivered" ∧ status ≠ "failed" ∧ status ≠ "bounced") →
      (log_message_event logs msg status event_type ps resp ec em ext cost dur qid
        now).2.final_status = msg.final_status) ∧
    (status ≠ "delivered" →
      (log_message_event logs msg status event_type ps resp ec em ext cost dur qid
        now).2.delivery_timestamp = msg.delivery_timestamp) := by
  refine ⟨?_, ?_, ?_, ?_⟩
  · rintro (h | h | h) <;> subst h <;> rfl
  · rintro h; subst h; rfl
  · rintro ⟨h1, h2, h3⟩
    simp [log_message_event, h1, h2, h3]
  · intro h1
    simp [log_message_event, h1]

/-- Claim C2, witness for the amended theorem: a `failed` event on a
message whose `final_status` is already `delivered` rewrites it to
`failed`, and a `delivered` event at time 200 restamps
`delivery_timestamp`. -/
theorem final_status_fold_amended_witness :
    (log_message_event [] { sampleMessage with final_status := some "delivered" }
        "failed" "delivery_update" none emptyResp none none none none none none
        300).2.final_status = some "failed" ∧
    (log_message_event [] { sampleMessage with delivery_timestamp := some 100 }
        "delivered" "delivery_update" none emptyResp none none none none none none
        200).2.delivery_timestamp = some 200 := by
  have h1 := final_status_fold_amended []
    { sampleMessage with final_status := some "delivered" } "failed"
    "delivery_update" none emptyResp none none none none none none 300
  have h2 := final_status_fold_amended []
    { sampleMessage with delivery_timestamp := some 100 } "delivered"
    "delivery_update" none emptyResp none none none none none none 200
  exact ⟨h1.1 (Or.inr (Or.inl rfl)), h2.2.1 rfl⟩

/-- Claim C8, counterexample: the dispatcher's inline send-path mapping
sends `read` to `sent`, not `delivered`, and does not pass an unknown
provider status such as `accepted` through unchanged (it defaults to
`sent`). -/
theorem dispatcher_status_mapping_cex :
    dispatcher_map_status "read" ≠ "delivered" ∧
    dispatcher_map_status "accepted" ≠ "accepted" := by
  decide

/-- Claim C8 (amended): the receipt path `_map_provider_status` maps
(case-insensitively) queued/sending/sent to sent, delivered/read to
delivered, failed/undelivered to failed, and passes anything else
through unchanged; the dispatcher's send path instead maps
queued/sending to sent, delivered to delivered, failed/undelivered to
failed, and defaults everything else — `read` and unknown statuses
included — to `sent`. -/
theorem provider_status_mapping_amended (s : String) :
    ((pyLower s = "queued" ∨ pyLower s = "sending" ∨ pyLower s = "sent") →
      map_provider_status s = "sent") ∧
    ((pyLower s = "delivered" ∨ pyLower s = "read") →
      map_provider_status s = "delivered") ∧
    ((pyLower s = "failed" ∨ pyLower s = "undelivered") →
      map_provider_status s = "failed") ∧
    (pyLower s ∉ (["queued", "sending", "sent", "delivered", "failed",
        "undelivered", "read"] : List String) →
      map_provider_status s = s) ∧
    ((s ≠ "queued" ∧ s ≠ "sending" ∧ s ≠ "delivered" ∧ s ≠ "failed" ∧
        s ≠ "undelivered") →
      dispatcher_map_status s = "sent") ∧
    (dispatcher_map_status "delivered" = "delivered" ∧
      dispatcher_map_status "failed" = "failed" ∧
      dispatcher_map_status "undelivered" = "failed" ∧
      dispatcher_map_status "queued" = "sent" ∧
      dispatcher_map_status "sending" = "sent") := by
  refine ⟨?_, ?_, ?_, ?_, ?_, by decide⟩
  · rintro (h | h | h) <;> simp [map_provider_status, h]
  · rintro (h | h) <;> simp [map_provider_status, h]
  · rintro (h | h) <;> simp [map_provider_status, h]
  · intro h
    simp only [List.mem_cons, List.not_mem_nil, or_false, not_or] at h
    obtain ⟨h1, h2, h3, h4, h5, h6, h7⟩ := h
    simp [map_provider_status, h1, h2, h3, h4, h5, h6, h7]
  · rintro ⟨h1, h2, h3, h4, h5⟩
    simp [dispatcher_map_status, h1, h2, h3, h4, h5]

/-- Claim C8, witness for the amended theorem at the unknown provider
status `accepted`: pass-through on the receipt path, default `sent` on
the dispatcher path. -/
theorem provider_status_mapping_amended_witness :
    map_provider_status "accepted" = "accepted" ∧
    dispatcher_map_status "accepted" = "sent" := by
  have h := provider_status_mapping_amended "accepted"
  exact ⟨h.2.2.2.1 (by decide), h.2.2.2.2.1 (by decide)⟩

/-- Claim C10: for a campaign with no `Message` rows,
`get_campaign_message_stats` takes the guarded early return and yields
the all-zero statistics — zero totals, empty breakdown and error
summary, and all four rates/aggregates zero — without reaching any of
the divisions by the message count. -/
theorem empty_campaign_stats_guarded (st : LogState) (campaign_id : Nat)
    (h : st.messages.filter (fun m => m.id_campagne == campaign_id) = []) :
    get_campaign_message_stats st campaign_id = zeroCampaignStats := by
  unfold get_campaign_message_stats
  rw [h]
  rfl

/-- Claim C10, witness: a state whose only message belongs to campaign
1 yields the zero statistics for campaign 2. -/
theorem empty_campaign_stats_guarded_witness :
    get_campaign_message_stats sampleState 2 = zeroCampaignStats := by
  exact empty_campaign_stats_guarded sampleState 2 (by decide)

/-- Claim C5: whatever the queue state and limit, `get_pending_messages`
returns only lease-eligible rows — status `pending` (hence never a
cancelled row), not scheduled in the future, no pending backoff — in
ascending `(priority, created_at)` order when `priority_order` is set
(the dispatcher's default), and at most `limit` of them. -/
theorem lease_eligibility_and_order (q : List SMSQueue) (limit : Nat) (po : Bool)
    (now : Int) :
    (∀ it ∈ get_pending_messages q limit po now,
      eligibleForLease now it = true ∧ it.status = "pending" ∧
      it.status ≠ "cancelled" ∧ it.scheduled_at ≤ now ∧
      (∀ t, it.next_retry_at = some t → t ≤ now)) ∧
    (get_pending_messages q limit true now).Pairwise leaseRel ∧
    (get_pending_messages q limit po now).length ≤ limit := by
  refine ⟨?_, ?_, ?_⟩
  · intro it hit
    unfold get_pending_messages at hit
    have hsub := List.take_subset _ _ hit
    have hfil : it ∈ q.filter (eligibleForLease now) := by
      cases po <;> simpa using hsub
    have he : eligibleForLease now it = true := (List.mem_filter.mp hfil).2
    have hparts := he
    simp only [eligibleForLease, Bool.and_eq_true, beq_iff_eq,
      decide_eq_true_eq] at hparts
    obtain ⟨⟨hstat, hsched⟩, hretry⟩ := hparts
    refine ⟨he, hstat, by simp [hstat], hsched, ?_⟩
    intro t ht
    rw [ht] at hretry
    simpa using hretry
  · unfold get_pending_messages
    exact (List.sorted_insertionSort leaseRel _).sublist
      (List.take_sublist _ _)
  · unfold get_pending_messages
    cases po <;> exact List.length_take_le _ _

/-- Claim C5, witness: with one eligible pending row and one cancelled
row, the lease returns eligible rows only, and the derived facts hold
for the returned `samplePending`. -/
theorem lease_eligibility_and_order_witness :
    samplePending ∈ get_pending_messages [sampleCancelledItem, samplePending] 10
      true 100 ∧
    eligibleForLease 100 samplePending = true ∧
    samplePending.status ≠ "cancelled" ∧
    samplePending.scheduled_at ≤ 100 := by
  have h := lease_eligibility_and_order [sampleCancelledItem, samplePending] 10
    true 100
  have hmem : samplePending ∈
      get_pending_messages [sampleCancelledItem, samplePending] 10 true 100 := by
    decide
  obtain ⟨he, -, hc, hs, -⟩ := h.1 samplePending hmem
  exact ⟨hmem, he, hc, hs⟩

/-- A database with one valid contact and one active campaign. -/
def sampleDb : Db :=
  { contacts := [{ id_contact := 1, numero_telephone := "+33612345678" }]
    campaigns := [{ id_campagne := 1, statut := "active" }]
    queue := [] }

/-- The row `add_to_queue` inserts for priority 11 and `max_attempts`
0 at time 50 with fresh id 7. -/
def sampleRow11 : SMSQueue :=
  { id := 7
    campaign_id := 1
    contact_id := 1
    message_content := "hello"
    priority := 11
    max_attempts := 0
    status := "pending"
    attempts := 0
    scheduled_at := 50
    next_retry_at := none
    last_attempt_at := none
    processed_at := none
    external_message_id := none
    error_message := none
    created_at := 50 }

/-- Claim C4, counterexample: a submit with `priority = 11` and
`max_attempts = 0` against a valid contact and active campaign is not
rejected by `add_to_queue` — no validation error is raised and the
queue row is created with the out-of-range values. -/
theorem add_to_queue_accepts_out_of_range_cex :
    add_to_queue (fun _ => true) sampleDb 1 1 "hello" none 11 0 50 7 =
      .ok ({ sampleDb with queue := [sampleRow11] }, sampleRow11) ∧
    sampleRow11.priority = 11 ∧ sampleRow11.max_attempts = 0 := by
  exact ⟨rfl, rfl, rfl⟩

/-- Claim C4 (amended): `add_to_queue` raises a validation error exactly
when the contact is missing, its phone number does not validate, the
campaign is missing, or the campaign status is outside
`active`/`scheduled`; it performs no range validation on `priority` or
`max_attempts`, so any values — including 11 and 0 — reach the insert,
where only the database check constraints introduced by migration
`sms_queue_enhancement_001` (violated by 11 and 0) can still reject the
row, as an integrity error rather than a validation error. -/
theorem add_to_queue_validation_amended (phoneOk : String → Bool) (db : Db)
    (campaign_id contact_id : Nat) (body : String) (sched : Option Int)
    (priority : Int) (max_attempts : Nat) (now : Int) (newId : Nat) :
    ((∃ e, add_to_queue phoneOk db campaign_id contact_id body sched priority
        max_attempts now newId = .error e) ↔
      (db.contacts.find? (fun c => c.id_contact == contact_id) = none ∨
        ∃ contact,
          db.contacts.find? (fun c => c.id_contact == contact_id) = some contact ∧
          (phoneOk contact.numero_telephone = false ∨
            db.campaigns.find? (fun c => c.id_campagne == campaign_id) = none ∨
            ∃ campaign,
              db.campaigns.find? (fun c => c.id_campagne == campaign_id) =
                some campaign ∧
              campaign.statut ≠ "active" ∧ campaign.statut ≠ "scheduled"))) ∧
    (∀ db1 item, add_to_queue phoneOk db campaign_id contact_id body sched
        priority max_attempts now newId = .ok (db1, item) →
      item.status = "pending" ∧ item.attempts = 0 ∧ item.priority = priority ∧
      item.max_attempts = max_attempts ∧ item.scheduled_at = sched.getD now ∧
      db1.queue = db.queue ++ [item]) ∧
    (ck_sms_queue_priority_range 11 = false ∧
      ck_sms_queue_max_attempts_range 0 = false) := by
  unfold add_to_queue
  cases hcon : db.contacts.find? (fun c => c.id_contact == contact_id) with
  | none =>
    dsimp only
    refine ⟨?_, ?_, by decide⟩
    · simp
    · intro db1 item h; cases h
  | some contact =>
    dsimp only
    by_cases hp : phoneOk contact.numero_telephone
    · rw [if_neg (by simp [hp])]
      cases hcam : db.campaigns.find? (fun c => c.id_campagne == campaign_id) with
      | none =>
        dsimp only
        refine ⟨?_, ?_, by decide⟩
        · simp [hp]
        · intro db1 item h; cases h
      | some campaign =>
        dsimp only
        by_cases hs : (campaign.statut == "active" ||
            campaign.statut == "scheduled") = true
        · rw [if_pos hs]
          refine ⟨?_, ?_, by decide⟩
          · simp only [iff_iff_implies_and_implies]
            constructor
            · rintro ⟨e, he⟩; cases he
            · rintro (h | ⟨c, hc, h⟩)
              · cases h
              · injection hc with hc
                subst hc
                rcases h with h | h | ⟨k, hk, h1, h2⟩
                · rw [hp] at h; cases h
                · cases h
                · injection hk with hk
                  subst hk
                  exact absurd hs (by simp [h1, h2])
          · intro db1 item h
            injection h with h
            injection h with h1 h2
            subst h2
            refine ⟨rfl, rfl, rfl, rfl, rfl, ?_⟩
            rw [← h1]
        · rw [if_neg hs]
          have hne : campaign.statut ≠ "active" ∧ campaign.statut ≠ "scheduled" := by
            constructor <;> intro h <;> exact hs (by simp [h])
          refine ⟨?_, ?_, by decide⟩
          · exact ⟨fun _ => Or.inr ⟨contact, rfl,
              Or.inr (Or.inr ⟨campaign, rfl, hne⟩)⟩, fun _ => ⟨_, rfl⟩⟩
          · intro db1 item h; cases h
    · rw [if_pos (by simp [hp])]
      refine ⟨?_, ?_, by decide⟩
      · exact ⟨fun _ => Or.inr ⟨contact, rfl, Or.inl (by simp [hp])⟩,
          fun _ => ⟨_, rfl⟩⟩
      · intro db1 item h; cases h

/-- Claim C4, witness for the amended theorem: the out-of-range submit
succeeds at the service layer with the values stored verbatim, and the
migration's check constraints are what reject them. -/
theorem add_to_queue_validation_amended_witness :
    sampleRow11.status = "pending" ∧ sampleRow11.attempts = 0 ∧
    sampleRow11.priority = 11 ∧ sampleRow11.max_attempts = 0 ∧
    ck_sms_queue_priority_range 11 = false ∧
    ck_sms_queue_max_attempts_range 0 = false := by
  have h := add_to_queue_validation_amended (fun _ => true) sampleDb 1 1 "hello"
    none 11 0 50 7
  have hok : add_to_queue (fun _ => true) sampleDb 1 1 "hello" none 11 0 50 7 =
      .ok ({ sampleDb with queue := [sampleRow11] }, sampleRow11) := rfl
  obtain ⟨h1, h2, h3, h4, -, -⟩ := h.2.1 _ _ hok
  exact ⟨h1, h2, h3, h4, h.2.2.1, h.2.2.2⟩

end SMSSpec
